import Mathlib

/-!
Verification of the `system_resources` C library: a shallow embedding of the
CPU / memory resource-limit resolution logic from
`src/lib/src/libsysres/cpu.c`, `src/lib/src/libsysres/memory.c`,
`src/tools/libsysres/memory.c` and `src/deploy/monitor.c` (Linux / `__unix__`
branches), together with theorems about the resolver behaviour.

Modelling conventions:
- A filesystem / environment state is a `Sys` record; every file the code
  opens is an `Option String` (`none` = `fopen` failed).
- C `float` / `double` arithmetic is modelled exactly over `ℚ` (the claims
  speak of values "within floating-point tolerance"); `long long` arithmetic
  is modelled over `ℤ` (signed overflow is undefined behaviour in C, and all
  theorems stay inside the defined range).  Division by zero in `ℚ` yields
  the junk value `0`; every theorem that divides carries a positivity
  hypothesis on the denominator.
- `strtoll`/`atoll` clamp out-of-range digit strings to the `int64` bounds,
  as glibc does; `(int32_t)` narrowing is modelled as two's-complement wrap.
-/

/-- Character class of C `isspace` in the "C" locale:
space, `\t`, `\n`, vertical tab (11), form feed (12), `\r` (13). -/
def isSpaceC (c : Char) : Bool :=
  c = ' ' || c = '\t' || c = '\n' || c.toNat = 11 || c.toNat = 12 || c.toNat = 13

/-- Value of a list of decimal digit characters, most significant first. -/
def digitsVal (ds : List Char) : Nat :=
  ds.foldl (fun a c => a * 10 + (c.toNat - 48)) 0

/-- Largest `long long` value (`LLONG_MAX`). -/
def i64Max : Int := 9223372036854775807

/-- Smallest `long long` value (`LLONG_MIN`). -/
def i64Min : Int := -9223372036854775808

/-- Clamp to the `long long` range, as `strtoll` does on overflow. -/
def clampI64 (x : Int) : Int := max i64Min (min i64Max x)

/-- C `strtoll(s, NULL, 10)` (also `atoll`): skip leading whitespace, parse an
optional sign and a run of decimal digits; no digits means no conversion,
which yields `0`.  Out-of-range values clamp to the `int64` bounds. -/
def strtoll (cs : List Char) : Int :=
  let cs := cs.dropWhile isSpaceC
  match cs with
  | '-' :: rest => clampI64 (-(digitsVal (rest.takeWhile Char.isDigit) : Int))
  | '+' :: rest => clampI64 (digitsVal (rest.takeWhile Char.isDigit))
  | _ => clampI64 (digitsVal (cs.takeWhile Char.isDigit))

/-- One `%lld` conversion of `fscanf`/`sscanf`: skip whitespace, then require
at least one digit after an optional sign; returns the parsed value and the
rest of the input, or `none` when the conversion fails. -/
def scanLL (cs : List Char) : Option (Int × List Char) :=
  let cs2 := cs.dropWhile isSpaceC
  match cs2 with
  | '-' :: rest =>
    let ds := rest.takeWhile Char.isDigit
    if ds.isEmpty then none
    else some (clampI64 (-(digitsVal ds : Int)), rest.drop ds.length)
  | '+' :: rest =>
    let ds := rest.takeWhile Char.isDigit
    if ds.isEmpty then none
    else some (clampI64 (digitsVal ds), rest.drop ds.length)
  | _ =>
    let ds := cs2.takeWhile Char.isDigit
    if ds.isEmpty then none else some (clampI64 (digitsVal ds), cs2.drop ds.length)

/-- The `sscanf(buff, "%lld %lld", &quota, &period)` call of
`get_cgroup_cpu_limit` (cpu.c line 50): both conversions must succeed. -/
def sscanfLLLL (cs : List Char) : Option (Int × Int) :=
  match scanLL cs with
  | none => none
  | some (q, rest) =>
    match scanLL rest with
    | none => none
    | some (p, _) => some (q, p)

/-- One `%63s` conversion of `fscanf` (monitor.c line 49): skip whitespace,
read a token of at most 63 non-whitespace characters; fails at end of input. -/
def scanTok (cs : List Char) : Option (List Char × List Char) :=
  let cs2 := cs.dropWhile isSpaceC
  if cs2.isEmpty then none
  else
    let tok := (cs2.takeWhile (fun c => !isSpaceC c)).take 63
    some (tok, cs2.drop tok.length)

/-- The `strncmp(buff, "max", 3) == 0` test of cpu.c line 42 and
memory.c line 53: the first three characters are `m`, `a`, `x`. -/
def startsWithMax (cs : List Char) : Bool :=
  cs.take 3 == ['m', 'a', 'x']

/-- C `strstr(buff, name)` followed by `+ strlen(name)` (memory.c lines
25-30): the suffix of `buff` just after the first occurrence of `name`,
or `none` when `name` does not occur. -/
def strstrAfter (buff name : List Char) : Option (List Char) :=
  match buff with
  | [] => if name.isEmpty then some [] else none
  | _ :: rest =>
    if name.isPrefixOf buff then some (buff.drop name.length)
    else strstrAfter rest name

/-- Sign-free part of C `strtof`: digits with an optional point and more
digits, read as the exact rational `ipart + fpart / 10 ^ |fpart|` (written
with `mkRat` over a common denominator); no digit at all means no
conversion, which yields `0`. -/
def strtofCore (cs : List Char) : ℚ :=
  let ipart := cs.takeWhile Char.isDigit
  let rest := cs.drop ipart.length
  let fpart := match rest with
               | '.' :: r => r.takeWhile Char.isDigit
               | _ => []
  if ipart.isEmpty && fpart.isEmpty then 0
  else mkRat (digitsVal ipart * 10 ^ fpart.length + digitsVal fpart) (10 ^ fpart.length)

/-- C `strtof(s, NULL)` on the decimal forms the library reads: leading
whitespace, optional sign, digits with an optional fractional part.
(The hexadecimal / exponent / infinity forms of `strtof` are not used by
any state considered here.)  No conversion yields `0`. -/
def strtofQ (cs : List Char) : ℚ :=
  let cs2 := cs.dropWhile isSpaceC
  match cs2 with
  | '-' :: rest => -(strtofCore rest)
  | '+' :: rest => strtofCore rest
  | _ => strtofCore cs2

/-- Two's-complement narrowing to `int32_t`, the `(int32_t)` cast of
monitor.c lines 54 and 79. -/
def toInt32 (x : Int) : Int := (x + 2147483648) % 4294967296 - 2147483648

/-- A point-in-time snapshot of everything the library reads: the cgroup and
proc files (`none` = the `fopen` fails), the `SYSRES_CPU_CORES` environment
variable, and the host syscall results (`get_nprocs`, `getloadavg`,
`sysinfo`). -/
structure Sys where
  cpuMax : Option String
  cpuQuota0 : Option String
  cpuPeriod0 : Option String
  cpuQuota1 : Option String
  cpuPeriod1 : Option String
  memoryMax : Option String
  memoryCurrent : Option String
  meminfo : Option String
  envCpuCores : Option String
  nprocs : Nat
  loadavg : ℚ
  totalram : Nat
  freeram : Nat
  memUnit : Nat

/-- A state in which every file is absent, the override variable is unset and
all host queries return zero. -/
def emptySys : Sys :=
  { cpuMax := none, cpuQuota0 := none, cpuPeriod0 := none, cpuQuota1 := none,
    cpuPeriod1 := none, memoryMax := none, memoryCurrent := none,
    meminfo := none, envCpuCores := none, nprocs := 0, loadavg := 0,
    totalram := 0, freeram := 0, memUnit := 0 }

/-- `get_cgroup_cpu_limit` (cpu.c lines 24-61): read at most 63 bytes of
`/sys/fs/cgroup/cpu.max`; `-1` when the file is missing or empty, when the
content starts with `max`, when `"%lld %lld"` does not parse, or when
`period <= 0`; otherwise `quota / period` as a float. -/
def get_cgroup_cpu_limit (s : Sys) : ℚ :=
  match s.cpuMax with
  | none => -1
  | some content =>
    let buff := content.data.take 63
    if buff.isEmpty then -1
    else if startsWithMax buff then -1
    else
      match sscanfLLLL buff with
      | none => -1
      | some (quota, period) =>
        if period ≤ 0 then -1 else (quota : ℚ) / (period : ℚ)

/-- `get_env_cpu_limit` (cpu.c lines 64-79): `strtof` of `SYSRES_CPU_CORES`;
`-1` when the variable is unset or the parsed value is `<= 0`. -/
def get_env_cpu_limit (s : Sys) : ℚ :=
  match s.envCpuCores with
  | none => -1
  | some v => if strtofQ v.data ≤ 0 then -1 else strtofQ v.data

/-- `get_cpu_limit_cores` (cpu.c lines 81-99): environment override first,
then the cgroup v2 limit, then the host core count `get_nprocs()`. -/
def get_cpu_limit_cores (s : Sys) : ℚ :=
  if 0 < get_env_cpu_limit s then get_env_cpu_limit s
  else if 0 < get_cgroup_cpu_limit s then get_cgroup_cpu_limit s
  else (s.nprocs : ℚ)

/-- `get_cpu_load` (cpu.c lines 101-113): the 1-minute load average divided
by the resolved limit, with the host core count substituted when the
resolved limit is `<= 0`. -/
def get_cpu_load (s : Sys) : ℚ :=
  s.loadavg / (if get_cpu_limit_cores s ≤ 0 then (s.nprocs : ℚ) else get_cpu_limit_cores s)

/-- `get_entry` (memory.c lines 23-32): `strtoll` of the text following the
first occurrence of `name` in `buff`; `0` when `name` does not occur. -/
def get_entry (name buff : List Char) : Int :=
  match strstrAfter buff name with
  | none => 0
  | some rest => strtoll rest

/-- `read_cgroup_value` (memory.c lines 35-59): read at most 63 bytes of the
given cgroup file; `-1` when the file is missing or empty or the content
starts with `max`, otherwise `strtoll` of the content. -/
def read_cgroup_value (file : Option String) : Int :=
  match file with
  | none => -1
  | some content =>
    let buff := content.data.take 63
    if buff.isEmpty then -1
    else if startsWithMax buff then -1
    else strtoll buff

/-- `get_proc_meminfo` (memory.c lines 62-93): read at most 4095 bytes of
`/proc/meminfo`; on any read failure both outputs are `0`; otherwise
`total = MemTotal * 1024` and
`used = (MemTotal - MemFree - Buffers - Cached) * 1024`, each key looked up
with `get_entry` (values are in kB). -/
def get_proc_meminfo (s : Sys) : Int × Int :=
  match s.meminfo with
  | none => (0, 0)
  | some content =>
    let buff := content.data.take 4095
    if buff.isEmpty then (0, 0)
    else
      let total_kb := get_entry "MemTotal:".data buff
      let free_kb := get_entry "MemFree:".data buff
      let buffers_kb := get_entry "Buffers:".data buff
      let cached_kb := get_entry "Cached:".data buff
      (total_kb * 1024, (total_kb - free_kb - buffers_kb - cached_kb) * 1024)

/-- `has_cgroup_memory_limit` (memory.c lines 96-100):
`read_cgroup_value("/sys/fs/cgroup/memory.max") > 0`. -/
def has_cgroup_memory_limit (s : Sys) : Bool :=
  0 < read_cgroup_value s.memoryMax

/-- `is_container_env` (memory.c lines 102-105). -/
def is_container_env (s : Sys) : Bool :=
  has_cgroup_memory_limit s

/-- `get_memory_limit_bytes` (memory.c lines 107-120): the cgroup v2 limit
when positive, else the `/proc/meminfo` total. -/
def get_memory_limit_bytes (s : Sys) : Int :=
  if 0 < read_cgroup_value s.memoryMax then read_cgroup_value s.memoryMax
  else (get_proc_meminfo s).1

/-- `get_memory_used_bytes` (memory.c lines 122-138): in a container, the
cgroup `memory.current` value when it reads `>= 0`, else the
`/proc/meminfo` used-bytes computation. -/
def get_memory_used_bytes (s : Sys) : Int :=
  if has_cgroup_memory_limit s then
    if 0 ≤ read_cgroup_value s.memoryCurrent then read_cgroup_value s.memoryCurrent
    else (get_proc_meminfo s).2
  else (get_proc_meminfo s).2

/-- `get_memory_usage` (memory.c lines 140-151): `used / limit` as floats,
but a literal `0.0` when `limit <= 0`. -/
def get_memory_usage (s : Sys) : ℚ :=
  if get_memory_limit_bytes s ≤ 0 then 0
  else (get_memory_used_bytes s : ℚ) / (get_memory_limit_bytes s : ℚ)

namespace Tools

/-- `get_memory_usage` of the second tree (src/tools/libsysres/memory.c lines
9-19): `sysinfo`-based, `(totalram - freeram) * mem_unit` over
`totalram * mem_unit`, with no cgroup awareness and no buffer/cache
subtraction. -/
def get_memory_usage (s : Sys) : ℚ :=
  ((((s.totalram : ℤ) - (s.freeram : ℤ)) * (s.memUnit : ℤ) : ℤ) : ℚ) /
    (((s.totalram : ℤ) * (s.memUnit : ℤ) : ℤ) : ℚ)

end Tools

/-- Unified-hierarchy branch of `get_cpu_limit_millicores` (monitor.c lines
46-58): two `%63s` tokens from `/sys/fs/cgroup/cpu.max`; the literal token
`max` yields the `-1` sentinel; otherwise `atoll` both tokens and return
`(quota * 1000) / period` (C truncating division, narrowed to `int32_t`)
when `period > 0`.  `none` means the branch falls through to the legacy
readers. -/
def unifiedMillicores (file : Option String) : Option Int :=
  match file with
  | none => none
  | some content =>
    match scanTok content.data with
    | none => none
    | some (q, rest) =>
      match scanTok rest with
      | none => none
      | some (p, _) =>
        if q = "max".data then some (-1)
        else
          let quota := strtoll q
          let period := strtoll p
          if 0 < period then some (toInt32 ((quota * 1000).tdiv period)) else none

/-- One iteration of the legacy split-hierarchy loop of
`get_cpu_limit_millicores` (monitor.c lines 69-84): both files must open and
scan with `%PRId64`; `quota == -1` yields the `-1` sentinel; `period > 0`
yields the millicore value; otherwise the iteration falls through. -/
def legacyVariant (qf pf : Option String) : Option Int :=
  match qf, pf with
  | some qc, some pc =>
    match scanLL qc.data, scanLL pc.data with
    | some (q, _), some (p, _) =>
      if q = -1 then some (-1)
      else if 0 < p then some (toInt32 ((q * 1000).tdiv p))
      else none
    | _, _ => none
  | _, _ => none

/-- `get_cpu_limit_millicores` (monitor.c lines 43-87): unified reader first,
then the two legacy path variants in order, else the `-1` sentinel. -/
def get_cpu_limit_millicores (s : Sys) : Int :=
  match unifiedMillicores s.cpuMax with
  | some v => v
  | none =>
    match legacyVariant s.cpuQuota0 s.cpuPeriod0 with
    | some v => v
    | none =>
      match legacyVariant s.cpuQuota1 s.cpuPeriod1 with
      | some v => v
      | none => -1

/-! ### Helper lemmas -/

/-- Two's-complement narrowing is the identity on values already in the
`int32_t` range. -/
theorem toInt32_eq_self (x : Int) (h1 : -2147483648 ≤ x) (h2 : x < 2147483648) :
    toInt32 x = x := by
  unfold toInt32
  have h3 : (0 : Int) ≤ x + 2147483648 := by linarith
  have h4 : x + 2147483648 < 4294967296 := by linarith
  rw [Int.emod_eq_of_lt h3 h4]
  ring

/-- For a nonnegative dividend and positive divisor, C truncating division
agrees with the rational floor. -/
theorem tdiv_eq_floor (a b : Int) (ha : 0 ≤ a) (hb : 0 < b) :
    a.tdiv b = ⌊(a : ℚ) / (b : ℚ)⌋ := by
  rw [Int.tdiv_eq_ediv ha hb.le]
  have hb' : ((b.toNat : ℕ) : ℚ) = (b : ℚ) := by
    exact_mod_cast congrArg (fun z : ℤ => (z : ℚ)) (Int.toNat_of_nonneg hb.le)
  rw [← hb', Rat.floor_intCast_div_natCast, Int.toNat_of_nonneg hb.le]

/-! ### Claim C1 -/

/-- C1 (counterexample): in a state where every source is absent the resolved
memory limit is `<= 0`, yet `get_memory_usage` returns the literal numeric
`0.0` — there is no explicit "unknown" result distinguishable from `0.0`
(memory.c lines 145-148 are `return 0.0f`). -/
theorem C1_zero_counterexample :
    get_memory_limit_bytes emptySys ≤ 0 ∧ get_memory_usage emptySys = 0 :=
  ⟨by decide, by decide⟩

/-- C1 (amended): whenever the resolved memory limit is `<= 0`,
`get_memory_usage` returns the numeric value `0.0`, so callers cannot
distinguish "no limit data" from "empty memory". -/
theorem C1_usage_zero_when_no_limit (s : Sys)
    (h : get_memory_limit_bytes s ≤ 0) : get_memory_usage s = 0 := by
  unfold get_memory_usage
  exact if_pos h

/-- C1 witness: the amended theorem applied to the all-absent state. -/
theorem C1_usage_zero_when_no_limit_witness :
    get_memory_limit_bytes emptySys ≤ 0 ∧ get_memory_usage emptySys = 0 :=
  ⟨by decide, C1_usage_zero_when_no_limit emptySys (by decide)⟩

/-! ### Claim C3 -/

/-- C3: whenever `SYSRES_CPU_CORES` is set and parses to a positive float,
`get_cpu_limit_cores` returns exactly that value, for every cgroup file
state and host core count. -/
theorem C3_env_override_wins (s : Sys) (v : String)
    (hv : s.envCpuCores = some v) (hpos : 0 < strtofQ v.data) :
    get_cpu_limit_cores s = strtofQ v.data := by
  have he : get_env_cpu_limit s = strtofQ v.data := by
    simp [get_env_cpu_limit, hv, not_le.mpr hpos]
  simp [get_cpu_limit_cores, he, hpos]

/-- State for the C3 witness: the override says 2.5 cores while the cgroup
file says 1 core and the host has 8 cores. -/
def s3 : Sys :=
  { emptySys with envCpuCores := some "2.5", cpuMax := some "100000 100000", nprocs := 8 }

/-- C3 witness: with override `"2.5"`, cgroup limit 1 core and 8 host cores,
the resolved limit is the override value 5/2. -/
theorem C3_env_override_wins_witness :
    s3.envCpuCores = some "2.5" ∧ 0 < strtofQ "2.5".data ∧
    get_cpu_limit_cores s3 = strtofQ "2.5".data :=
  ⟨rfl, by decide, C3_env_override_wins s3 "2.5" rfl (by decide)⟩

/-! ### Claim C4 -/

/-- C4: `is_container_env` is true iff the cgroup v2 memory-limit reader
yields a bounded positive value, and it is unaffected by every CPU cgroup
file (so a host-only scenario with a CPU limit file still reports false). -/
theorem C4_container_iff_memory_limit (s : Sys) :
    (is_container_env s = true ↔ 0 < read_cgroup_value s.memoryMax) ∧
    (∀ c q0 p0 q1 p1 : Option String,
      is_container_env { s with cpuMax := c, cpuQuota0 := q0, cpuPeriod0 := p0,
                                cpuQuota1 := q1, cpuPeriod1 := p1 } = is_container_env s) := by
  constructor
  · simp [is_container_env, has_cgroup_memory_limit]
  · intro c q0 p0 q1 p1
    rfl

/-! ### Claim C6 -/

/-- C6: `get_cpu_load` is the 1-minute load average divided by the resolved
CPU limit with the host core count substituted when that limit is `<= 0`;
on every state with at least one host processor (every reachable state,
since `get_nprocs` reports at least one online CPU) the denominator of the
division is positive, hence never zero. -/
theorem C6_load_denominator_never_zero (s : Sys) (h : 0 < s.nprocs) :
    0 < (if get_cpu_limit_cores s ≤ 0 then (s.nprocs : ℚ) else get_cpu_limit_cores s) ∧
    get_cpu_load s =
      s.loadavg / (if get_cpu_limit_cores s ≤ 0 then (s.nprocs : ℚ) else get_cpu_limit_cores s) := by
  refine ⟨?_, rfl⟩
  rcases le_or_lt (get_cpu_limit_cores s) 0 with hle | hlt
  · rw [if_pos hle]
    exact_mod_cast h
  · rw [if_neg (not_le.mpr hlt)]
    exact hlt

/-- State for the C6 witness: 4 host cores, load average 2, no other source. -/
def s6 : Sys := { emptySys with nprocs := 4, loadavg := 2 }

/-- C6 witness: the theorem applied to a 4-core host with load 2. -/
theorem C6_load_denominator_never_zero_witness :
    0 < s6.nprocs ∧
    (0 < (if get_cpu_limit_cores s6 ≤ 0 then (s6.nprocs : ℚ) else get_cpu_limit_cores s6) ∧
     get_cpu_load s6 =
       s6.loadavg / (if get_cpu_limit_cores s6 ≤ 0 then (s6.nprocs : ℚ) else get_cpu_limit_cores s6)) :=
  ⟨by decide, C6_load_denominator_never_zero s6 (by decide)⟩

/-! ### Claim C8 -/

/-- C8: when `SYSRES_CPU_CORES` is set but its `strtof` value is `<= 0`
(so `"0"`, `"-1"` and non-numeric strings, which parse to `0`), the
override is ignored: the resolution behaves exactly as if the variable
were unset, falling through to the cgroup reader and host count. -/
theorem C8_invalid_override_ignored (s : Sys) (v : String)
    (hv : s.envCpuCores = some v) (hnp : strtofQ v.data ≤ 0) :
    get_cpu_limit_cores s = get_cpu_limit_cores { s with envCpuCores := none } := by
  have h1 : get_env_cpu_limit s = -1 := by
    simp [get_env_cpu_limit, hv, hnp]
  have h2 : get_env_cpu_limit { s with envCpuCores := none } = -1 := rfl
  have h3 : get_cgroup_cpu_limit { s with envCpuCores := none } = get_cgroup_cpu_limit s := rfl
  simp only [get_cpu_limit_cores, h1, h2, h3]

/-- Base state for the C8 witness: cgroup limit 2 cores, 8 host cores. -/
def s8base : Sys := { emptySys with cpuMax := some "200000 100000", nprocs := 8 }

/-- C8 witness state with override `"-1"`. -/
def s8a : Sys := { s8base with envCpuCores := some "-1" }

/-- C8 witness state with override `"0"`. -/
def s8b : Sys := { s8base with envCpuCores := some "0" }

/-- C8 witness state with override `"abc"`. -/
def s8c : Sys := { s8base with envCpuCores := some "abc" }

/-- C8 witness: the overrides `"-1"`, `"0"` and `"abc"` all parse `<= 0` and
are ignored (same result as with the variable unset). -/
theorem C8_invalid_override_ignored_witness :
    (strtofQ "-1".data ≤ 0 ∧
      get_cpu_limit_cores s8a = get_cpu_limit_cores { s8a with envCpuCores := none }) ∧
    (strtofQ "0".data ≤ 0 ∧
      get_cpu_limit_cores s8b = get_cpu_limit_cores { s8b with envCpuCores := none }) ∧
    (strtofQ "abc".data ≤ 0 ∧
      get_cpu_limit_cores s8c = get_cpu_limit_cores { s8c with envCpuCores := none }) :=
  ⟨⟨by decide, C8_invalid_override_ignored s8a "-1" rfl (by decide)⟩,
   ⟨by decide, C8_invalid_override_ignored s8b "0" rfl (by decide)⟩,
   ⟨by decide, C8_invalid_override_ignored s8c "abc" rfl (by decide)⟩⟩

/-! ### Claim C10 -/

/-- C10: whenever a bounded positive cgroup memory limit exists (container
detected) but `memory.current` cannot be read or reads negative,
`get_memory_used_bytes` silently falls back to the `/proc/meminfo`
used-bytes computation. -/
theorem C10_current_unreadable_falls_back (s : Sys)
    (hlim : 0 < read_cgroup_value s.memoryMax)
    (hcur : read_cgroup_value s.memoryCurrent < 0) :
    get_memory_used_bytes s = (get_proc_meminfo s).2 := by
  simp [get_memory_used_bytes, has_cgroup_memory_limit, hlim, not_le.mpr hcur]

/-- State for the C10 witness: a 1 MB cgroup limit, no `memory.current`
file, and a small meminfo block. -/
def s10 : Sys :=
  { emptySys with memoryMax := some "1000000",
                  meminfo := some "MemTotal: 100 kB\nMemFree: 10 kB\n" }

/-- C10 witness: with the limit readable and `memory.current` absent, the
used bytes come from `/proc/meminfo`. -/
theorem C10_current_unreadable_falls_back_witness :
    0 < read_cgroup_value s10.memoryMax ∧ read_cgroup_value s10.memoryCurrent < 0 ∧
    get_memory_used_bytes s10 = (get_proc_meminfo s10).2 :=
  ⟨by decide, by decide, C10_current_unreadable_falls_back s10 (by decide) (by decide)⟩

/-! ### Claim C2 -/

/-- State for the C2 counterexample: unified quota token `max`, 8 host
cores, no override. -/
def s2host : Sys := { emptySys with cpuMax := some "max 100000", nprocs := 8 }

/-- C2 (counterexample): with the unified quota token `max` the library's
`get_cpu_limit_cores` does NOT propagate a distinct "unbounded" result to
the caller: it returns the host core count, a numeric value
indistinguishable from a real ceiling (cpu.c line 98). -/
theorem C2_unbounded_coerced_counterexample :
    get_cpu_limit_cores s2host = (s2host.nprocs : ℚ) ∧ (s2host.nprocs : ℚ) = 8 :=
  ⟨by decide, by decide⟩

/-- C2 (amended): the monitor's `get_cpu_limit_millicores` does propagate
`max` (unified) and `-1` (either legacy path variant) as the distinct `-1`
"no limit" sentinel, never 0; the library's `get_cpu_limit_cores`, by
contrast, coerces an unbounded cgroup limit to the host core count. -/
theorem C2_unbounded_sentinel :
    (∀ (s : Sys) (c : String) (rest r2 tok2 : List Char),
      s.cpuMax = some c →
      scanTok c.data = some ("max".data, rest) →
      scanTok rest = some (tok2, r2) →
      get_cpu_limit_millicores s = -1) ∧
    (∀ (s : Sys) (qc pc : String) (r1 r2 : List Char) (p : Int),
      s.cpuMax = none →
      s.cpuQuota0 = some qc → s.cpuPeriod0 = some pc →
      scanLL qc.data = some (-1, r1) → scanLL pc.data = some (p, r2) →
      get_cpu_limit_millicores s = -1) ∧
    (∀ (s : Sys) (qc pc : String) (r1 r2 : List Char) (p : Int),
      s.cpuMax = none → s.cpuQuota0 = none →
      s.cpuQuota1 = some qc → s.cpuPeriod1 = some pc →
      scanLL qc.data = some (-1, r1) → scanLL pc.data = some (p, r2) →
      get_cpu_limit_millicores s = -1) ∧
    (∀ (s : Sys) (c : String),
      s.envCpuCores = none → s.cpuMax = some c →
      startsWithMax (c.data.take 63) = true →
      get_cpu_limit_cores s = (s.nprocs : ℚ)) := by
  refine ⟨?_, ?_, ?_, ?_⟩
  · intro s c rest r2 tok2 hc h1 h2
    simp [get_cpu_limit_millicores, unifiedMillicores, hc, h1, h2]
  · intro s qc pc r1 r2 p hc hq hp h1 h2
    simp [get_cpu_limit_millicores, unifiedMillicores, legacyVariant, hc, hq, hp, h1, h2]
  · intro s qc pc r1 r2 p hc hq0 hq hp h1 h2
    simp [get_cpu_limit_millicores, unifiedMillicores, legacyVariant, hc, hq0, hq, hp, h1, h2]
  · intro s c henv hc hmax
    have henv' : get_env_cpu_limit s = -1 := by simp [get_env_cpu_limit, henv]
    have hne : (c.data.take 63).isEmpty = false := by
      cases h : c.data.take 63 with
      | nil => rw [h] at hmax; simp [startsWithMax] at hmax
      | cons a l => rfl
    have hcg : get_cgroup_cpu_limit s = -1 := by
      simp [get_cgroup_cpu_limit, hc, hne, hmax]
    rw [get_cpu_limit_cores, henv', hcg]
    norm_num

/-- State for the C2 witness: a legacy variant-0 quota of `-1`. -/
def s2leg0 : Sys := { emptySys with cpuQuota0 := some "-1", cpuPeriod0 := some "100000" }

/-- State for the C2 witness: a legacy variant-1 quota of `-1`, variant 0
absent. -/
def s2leg1 : Sys := { emptySys with cpuQuota1 := some "-1\n", cpuPeriod1 := some "100000\n" }

/-- C2 witness: the amended theorem applied to a unified `max` state, both
legacy `-1` variants, and the host-coercion clause. -/
theorem C2_unbounded_sentinel_witness :
    get_cpu_limit_millicores s2host = -1 ∧
    get_cpu_limit_millicores s2leg0 = -1 ∧
    get_cpu_limit_millicores s2leg1 = -1 ∧
    get_cpu_limit_cores s2host = (s2host.nprocs : ℚ) :=
  ⟨C2_unbounded_sentinel.1 s2host "max 100000" " 100000".data [] "100000".data
     rfl (by decide) (by decide),
   C2_unbounded_sentinel.2.1 s2leg0 "-1" "100000" [] [] 100000
     rfl rfl rfl (by decide) (by decide),
   C2_unbounded_sentinel.2.2.1 s2leg1 "-1\n" "100000\n" "\n".data "\n".data 100000
     rfl rfl rfl rfl (by decide) (by decide),
   C2_unbounded_sentinel.2.2.2 s2host "max 100000" rfl rfl (by decide)⟩

/-! ### Claim C5 -/

/-- State for the C5 counterexample: unified quota `-500000`, period
`300000`. -/
def s5neg : Sys := { emptySys with cpuMax := some "-500000 300000" }

/-- C5 (counterexample): for quota `-500000` and period `300000` (period
positive, quota not `max`) the monitor returns the C truncation `-1666`,
while `floor(quota*1000/period)` is `-1667`, so the milli-core output is
not `floor(quota*1000/period)` in general. -/
theorem C5_millicores_floor_counterexample :
    get_cpu_limit_millicores s5neg = -1666 ∧
    ⌊((-500000 : ℚ) * 1000 / 300000)⌋ = -1667 ∧ (-1666 : ℤ) ≠ -1667 := by
  refine ⟨by decide, ?_, by decide⟩
  rw [show ((-500000 : ℚ) * 1000 / 300000) =
        ((-500000000 : ℤ) : ℚ) / ((300000 : ℕ) : ℚ) by norm_num]
  rw [Rat.floor_intCast_div_natCast]
  decide

/-- C5 (amended): for every parsed pair with `period > 0` and a quota token
other than `max` (and the arithmetic inside the C integer ranges, negative
quotas included), the library resolves the limit to exactly
`quota / period`, and the monitor's milli-core output is
`(quota * 1000) / period` in C truncating (toward-zero) division — which
equals `floor(quota*1000/period)` whenever `quota >= 0`. -/
theorem C5_limit_quota_over_period (s : Sys) (c : String) (quota period : Int)
    (qtok ptok rest r2 : List Char)
    (hc : s.cpuMax = some c)
    (h1 : scanTok c.data = some (qtok, rest))
    (h2 : scanTok rest = some (ptok, r2))
    (hqm : qtok ≠ "max".data)
    (hq : strtoll qtok = quota)
    (hp : strtoll ptok = period)
    (hper : 0 < period)
    (_hprod : i64Min ≤ quota * 1000 ∧ quota * 1000 ≤ i64Max)
    (hlo : -2147483648 ≤ (quota * 1000).tdiv period)
    (hhi : (quota * 1000).tdiv period < 2147483648)
    (hbuff : sscanfLLLL (c.data.take 63) = some (quota, period))
    (hnmax : startsWithMax (c.data.take 63) = false) :
    get_cgroup_cpu_limit s = (quota : ℚ) / (period : ℚ) ∧
    get_cpu_limit_millicores s = (quota * 1000).tdiv period ∧
    (0 ≤ quota → (quota * 1000).tdiv period = ⌊(quota : ℚ) * 1000 / (period : ℚ)⌋) := by
  have hne : (c.data.take 63).isEmpty = false := by
    cases h : c.data.take 63 with
    | nil => rw [h] at hbuff; simp [sscanfLLLL, scanLL] at hbuff
    | cons a l => rfl
  refine ⟨?_, ?_, ?_⟩
  · simp [get_cgroup_cpu_limit, hc, hne, hnmax, hbuff, not_le.mpr hper]
  · simp only [get_cpu_limit_millicores, unifiedMillicores, hc, h1, h2]
    rw [if_neg hqm]
    simp only [hq, hp, if_pos hper]
    exact toInt32_eq_self _ hlo hhi
  · intro hqpos
    have h0 : (0 : ℤ) ≤ quota * 1000 := by positivity
    rw [tdiv_eq_floor _ _ h0 hper]
    congr 1
    push_cast
    ring

/-- State for the C5 witness: quota 150000, period 100000 (1.5 cores). -/
def s5w : Sys := { emptySys with cpuMax := some "150000 100000" }

/-- C5 witness: on `"150000 100000"` the limit is 3/2 cores and the
milli-core output is 1500 (= the floor, quota being nonnegative); on
`"-500000 300000"` the limit is -5/3 cores and the milli-core output is the
C truncation -1666. -/
theorem C5_limit_quota_over_period_witness :
    (get_cgroup_cpu_limit s5w = 3 / 2 ∧ get_cpu_limit_millicores s5w = 1500 ∧
      ⌊((150000 : ℤ) : ℚ) * 1000 / ((100000 : ℤ) : ℚ)⌋ = 1500) ∧
    (get_cgroup_cpu_limit s5neg = -5 / 3 ∧ get_cpu_limit_millicores s5neg = -1666) := by
  have hw := C5_limit_quota_over_period s5w "150000 100000" 150000 100000
    "150000".data "100000".data " 100000".data [] rfl (by decide) (by decide)
    (by decide) (by decide) (by decide) (by decide) ⟨by decide, by decide⟩
    (by decide) (by decide) (by decide) (by decide)
  have hn := C5_limit_quota_over_period s5neg "-500000 300000" (-500000) 300000
    "-500000".data "300000".data " 300000".data [] rfl (by decide) (by decide)
    (by decide) (by decide) (by decide) (by decide) ⟨by decide, by decide⟩
    (by decide) (by decide) (by decide) (by decide)
  refine ⟨⟨hw.1.trans (by norm_num), hw.2.1.trans (by decide), ?_⟩,
    hn.1.trans (by norm_num), hn.2.1.trans (by decide)⟩
  exact (hw.2.2 (by decide)).symm.trans (by decide)

/-! ### Claim C7 -/

/-- The meminfo block named by the claim. -/
def m7 : String :=
  "MemTotal: 2000000 kB\nMemFree: 500000 kB\nBuffers: 100000 kB\nCached: 400000 kB\n"

/-- State whose `/proc/meminfo` is the claim's block. -/
def s7 : Sys := { emptySys with meminfo := some m7 }

/-- C7 (counterexample): on the claim's own block the code computes
`used = (2000000 - 500000 - 100000 - 400000) * 1024 = 1000000 * 1024`,
which is not the claimed `1024000 * 1024` (the claim's arithmetic slip:
2000000 - 500000 - 100000 - 400000 = 1000000, not 1024000). -/
theorem C7_meminfo_used_counterexample :
    (get_proc_meminfo s7).2 = 1000000 * 1024 ∧
    (1000000 * 1024 : ℤ) ≠ 1024000 * 1024 :=
  ⟨by decide, by decide⟩

/-- C7 (amended): for every nonempty `/proc/meminfo` text block the reader
computes `total = MemTotal * 1024` and
`used = (MemTotal - MemFree - Buffers - Cached) * 1024`, where each value is
the `strtoll` of the text after the first substring occurrence of the key
name in the first 4095 bytes (`get_entry`), a missing key contributing zero
rather than failing; on the claim's concrete block this yields
`total = 2000000 * 1024` and `used = 1000000 * 1024 = 1024000000`. -/
theorem C7_meminfo_reader :
    (∀ (s : Sys) (c : String), s.meminfo = some c →
      (c.data.take 4095).isEmpty = false →
      get_proc_meminfo s =
        (get_entry "MemTotal:".data (c.data.take 4095) * 1024,
         (get_entry "MemTotal:".data (c.data.take 4095) -
          get_entry "MemFree:".data (c.data.take 4095) -
          get_entry "Buffers:".data (c.data.take 4095) -
          get_entry "Cached:".data (c.data.take 4095)) * 1024)) ∧
    get_proc_meminfo s7 = (2000000 * 1024, 1000000 * 1024) ∧
    get_proc_meminfo
      { emptySys with meminfo := some "MemTotal: 1000 kB\nMemFree: 200 kB\nCached: 100 kB\n" } =
      (1000 * 1024, 700 * 1024) := by
  refine ⟨?_, by decide, by decide⟩
  intro s c hm hne
  simp [get_proc_meminfo, hm, hne]

/-- A small well-formed meminfo block for the C7 witness. -/
def m7w : String := "MemTotal: 300 kB\nMemFree: 100 kB\nBuffers: 50 kB\nCached: 20 kB\n"

/-- State whose `/proc/meminfo` is the witness block. -/
def s7w : Sys := { emptySys with meminfo := some m7w }

/-- C7 witness: the general clause of the amended theorem applied to a
concrete block. -/
theorem C7_meminfo_reader_witness :
    get_proc_meminfo s7w =
      (get_entry "MemTotal:".data (m7w.data.take 4095) * 1024,
       (get_entry "MemTotal:".data (m7w.data.take 4095) -
        get_entry "MemFree:".data (m7w.data.take 4095) -
        get_entry "Buffers:".data (m7w.data.take 4095) -
        get_entry "Cached:".data (m7w.data.take 4095)) * 1024) :=
  C7_meminfo_reader.1 s7w m7w rfl (by decide)

/-! ### Claim C9 -/

/-- Meminfo block for the C9 counterexample state. -/
def m9 : String := "MemTotal: 2000 kB\nMemFree: 500 kB\nBuffers: 100 kB\nCached: 400 kB\n"

/-- One underlying system state seen by both trees: the `sysinfo` totals
agree exactly with the meminfo block (`totalram * mem_unit = MemTotal * 1024`
and `freeram * mem_unit = MemFree * 1024`), no cgroup files. -/
def s9 : Sys :=
  { emptySys with meminfo := some m9, totalram := 2048000, freeram := 512000, memUnit := 1 }

/-- C9 (counterexample): on one identical underlying state the library's
`get_memory_usage` yields 1/2 (it subtracts Buffers and Cached) while the
tools tree's `get_memory_usage` yields 3/4 (it counts them as used), so the
two near-identical implementations do not compute equal values. -/
theorem C9_two_usages_disagree :
    get_memory_usage s9 = 1 / 2 ∧ Tools.get_memory_usage s9 = 3 / 4 ∧
    ((1 : ℚ) / 2) ≠ 3 / 4 := by
  have hl : get_memory_limit_bytes s9 = 2048000 := by decide
  have hu : get_memory_used_bytes s9 = 1024000 := by decide
  refine ⟨?_, ?_, by norm_num⟩
  · rw [get_memory_usage, hl, hu]
    norm_num
  · show ((((2048000 : ℤ) - (512000 : ℤ)) * (1 : ℤ) : ℤ) : ℚ) /
        (((2048000 : ℤ) * (1 : ℤ) : ℤ) : ℚ) = 3 / 4
    norm_num

/-- C9 (amended): the two implementations agree only on the states where
their extra inputs are degenerate: no cgroup memory limit file, a meminfo
block whose Buffers and Cached are zero, and `sysinfo` totals consistent
with meminfo; then both compute `(total - free) / total`. -/
theorem C9_two_usages_agree_degenerate (s : Sys) (mt mf : Int)
    (hcg : s.memoryMax = none)
    (hm : get_proc_meminfo s = (mt * 1024, (mt - mf) * 1024))
    (hmt : 0 < mt)
    (htot : (s.totalram : ℤ) * (s.memUnit : ℤ) = mt * 1024)
    (hfree : (s.freeram : ℤ) * (s.memUnit : ℤ) = mf * 1024) :
    get_memory_usage s = Tools.get_memory_usage s := by
  have hrc : read_cgroup_value s.memoryMax = -1 := by rw [hcg]; rfl
  have hlim : get_memory_limit_bytes s = mt * 1024 := by
    rw [get_memory_limit_bytes, hrc, hm]
    norm_num
  have hused : get_memory_used_bytes s = (mt - mf) * 1024 := by
    rw [get_memory_used_bytes]
    have : has_cgroup_memory_limit s = false := by
      simp [has_cgroup_memory_limit, hrc]
    rw [this]
    simp [hm]
  have hlim_pos : (0 : ℤ) < mt * 1024 := by positivity
  rw [get_memory_usage, hlim, hused, if_neg (not_le.mpr hlim_pos), Tools.get_memory_usage]
  have hnum : ((s.totalram : ℤ) - (s.freeram : ℤ)) * (s.memUnit : ℤ) = (mt - mf) * 1024 := by
    rw [sub_mul, htot, hfree]
    ring
  rw [hnum, htot]

/-- Meminfo block for the C9 witness (no Buffers / Cached keys, so both
read as zero). -/
def m9w : String := "MemTotal: 2000 kB\nMemFree: 500 kB\n"

/-- Witness state for C9: consistent host-only state with zero buffers and
cache. -/
def s9w : Sys :=
  { emptySys with meminfo := some m9w, totalram := 2048000, freeram := 512000, memUnit := 1 }

/-- C9 witness: the amended theorem applied to the degenerate host state,
where both implementations yield 3/4. -/
theorem C9_two_usages_agree_degenerate_witness :
    get_proc_meminfo s9w = (2000 * 1024, (2000 - 500) * 1024) ∧
    get_memory_usage s9w = Tools.get_memory_usage s9w :=
  ⟨by decide,
   C9_two_usages_agree_degenerate s9w 2000 500 rfl (by decide) (by decide)
     (by decide) (by decide)⟩
